import Mathlib

/-!
Verification of the Reynolds-number calculator (`Re-cal.py`).

The script computes, behind a positivity guard on five user inputs,
`Re = (v * rho * K**0.5) / (17.50 * mu * phi**1.5)`,
draws one of four charts over numpy sweeps of `v` and/or `phi`, and exports
Word/PDF reports that read the conditionally bound `Re`.

Python floats are modelled as real numbers; `x ** y` is the real power
`Real.rpow`; numpy `linspace(a, b, n)` is the list `a + (b-a)*i/(n-1)` for
`i < n`; `meshgrid` + `flatten` is a join of rows.  A value that is only
bound when the guard holds is modelled as an `Option`, and code that reads
a possibly-unbound name returns `Except` (a `.error` stands for Python's
unhandled `NameError`).
-/

namespace ReCal

noncomputable section

/-- Embeds line 40: `Re = (v * rho * (K ** 0.5)) / (17.50 * mu * (phi ** 1.5))`. -/
def Re_eval (v K rho mu phi : ℝ) : ℝ :=
  (v * rho * K ^ (0.5 : ℝ)) / (17.50 * mu * phi ^ (1.5 : ℝ))

/-- Embeds line 39: `if v > 0 and K > 0 and rho > 0 and mu > 0 and phi > 0:`. -/
def guard_ok (v K rho mu phi : ℝ) : Prop :=
  v > 0 ∧ K > 0 ∧ rho > 0 ∧ mu > 0 ∧ phi > 0

instance (v K rho mu phi : ℝ) : Decidable (guard_ok v K rho mu phi) := by
  unfold guard_ok; infer_instance

/-- The primary result of a render pass: `Re` is bound (lines 39-41) only when
the guard succeeds; otherwise the name stays unbound, modelled as `none`. -/
def primaryResult (v K rho mu phi : ℝ) : Option ℝ :=
  if guard_ok v K rho mu phi then some (Re_eval v K rho mu phi) else none

/-- The `st.warning` branch of lines 42-43 runs exactly when the guard fails. -/
def warningShown (v K rho mu phi : ℝ) : Prop :=
  ¬ guard_ok v K rho mu phi

/-- Element `i` of numpy `linspace(a, b, n)` under real semantics. -/
def lin (a b : ℝ) (n i : ℕ) : ℝ :=
  a + (b - a) * i / (n - 1)

/-- Embeds numpy `linspace(a, b, n)` as a list of `n` evenly spaced reals. -/
def linspace (a b : ℝ) (n : ℕ) : List ℝ :=
  (List.range n).map (lin a b n)

/-- Embeds lines 56-58: the `v` sweep, `v_vals = linspace(0.01, 2.0, 100)` and
the vectorized `Re_vals`, zipped as the columns of the data frame. -/
def sweepV (K rho mu phi : ℝ) : List (ℝ × ℝ) :=
  (linspace 0.01 2.0 100).map (fun x =>
    (x, (x * rho * K ^ (0.5 : ℝ)) / (17.50 * mu * phi ^ (1.5 : ℝ))))

/-- Embeds lines 69-71: the `phi` sweep, `phi_vals = linspace(0.01, 0.8, 100)`
and the vectorized `Re_vals`. -/
def sweepPhi (v K rho mu : ℝ) : List (ℝ × ℝ) :=
  (linspace 0.01 0.8 100).map (fun p =>
    (p, (v * rho * K ^ (0.5 : ℝ)) / (17.50 * mu * p ^ (1.5 : ℝ))))

/-- Embeds lines 82-90: `meshgrid(linspace(0.01,2.0,50), linspace(0.01,0.8,50))`
with default `xy` indexing (row `j` fixes `phi_vals[j]`, column `i` fixes
`v_vals[i]`), the elementwise `Re_vals`, and the C-order `flatten` into the
three data-frame columns, here a list of `(v, phi, Re)` triples. -/
def gridTriples (K rho mu : ℝ) : List (ℝ × ℝ × ℝ) :=
  ((List.range 50).map (fun j =>
    (List.range 50).map (fun i =>
      (lin 0.01 2.0 50 i, lin 0.01 0.8 50 j,
        (lin 0.01 2.0 50 i * rho * K ^ (0.5 : ℝ)) /
          (17.50 * mu * lin 0.01 0.8 50 j ^ (1.5 : ℝ)))))).flatten

/-- The four entries of the `st.selectbox` on line 50. -/
inductive PlotOption
  | optV
  | optPhi
  | optHeat
  | optContour

/-- Number of points in the chart/table dataset built by the branch for each
selectbox option (lines 55-103); every option builds its dataset, the guard of
line 39 plays no role here. -/
def datasetSize (opt : PlotOption) (v K rho mu phi : ℝ) : ℕ :=
  match opt with
  | .optV => (sweepV K rho mu phi).length
  | .optPhi => (sweepPhi v K rho mu).length
  | .optHeat => (gridTriples K rho mu).length
  | .optContour => (gridTriples K rho mu).length

/-- Embeds lines 133-159: the Word report's parameter table reads the name
`Re`, which lines 39-41 bind only under the guard; reading it otherwise is an
unhandled `NameError`, modelled as `.error`. -/
def wordReportParams (v K rho mu phi : ℝ) : Except String (List (String × ℝ)) :=
  match primaryResult v K rho mu phi with
  | some r => .ok [("v", v), ("K", K), ("rho", rho), ("mu", mu), ("phi", phi), ("Re", r)]
  | none => .error "NameError: name Re is not defined"

/-- Embeds lines 161-206: the PDF report's parameter table reads the same
conditionally bound `Re`. -/
def pdfReportParams (v K rho mu phi : ℝ) : Except String (List (String × ℝ)) :=
  match primaryResult v K rho mu phi with
  | some r => .ok [("v", v), ("K", K), ("rho", rho), ("mu", mu), ("phi", phi), ("Re", r)]
  | none => .error "NameError: name Re is not defined"

/-- Spec formula of section 4.1, written with `sqrt` as the spec does:
`Re = (v * rho * sqrt(K)) / (17.50 * mu * phi^1.5)`. -/
def Re_specFormula (v K rho mu phi : ℝ) : ℝ :=
  (v * rho * Real.sqrt K) / (17.50 * mu * phi ^ (1.5 : ℝ))

end

/-! ### Helper lemmas -/

theorem getD_range_map {α : Type} (f : ℕ → α) (n i : ℕ) (d : α) (h : i < n) :
    ((List.range n).map f).getD i d = f i := by
  rw [List.getD_eq_getElem _ _ (by simpa using h)]
  simp

theorem lin_strictMono {a b : ℝ} (hab : a < b) (n : ℕ) {i j : ℕ}
    (hij : i < j) (hj : j < n) : lin a b n i < lin a b n j := by
  unfold lin
  have hn : (1:ℝ) ≤ (n : ℝ) - 1 := by
    have : 2 ≤ n := by omega
    have : (2:ℝ) ≤ (n : ℝ) := by exact_mod_cast this
    linarith
  have hij' : (i : ℝ) < (j : ℝ) := by exact_mod_cast hij
  have hba : (0:ℝ) < b - a := by linarith
  have := div_lt_div_of_pos_right (by nlinarith : (b - a) * i < (b - a) * j)
    (by linarith : (0:ℝ) < (n:ℝ) - 1)
  linarith

theorem rpow_half_100 : (100 : ℝ) ^ (0.5 : ℝ) = 10 := by
  rw [show (0.5 : ℝ) = 1 / 2 by norm_num, ← Real.sqrt_eq_rpow,
    show (100 : ℝ) = 10 ^ 2 by norm_num, Real.sqrt_sq (by norm_num : (0:ℝ) ≤ 10)]

theorem rpow_three_halves_quarter : (0.25 : ℝ) ^ (1.5 : ℝ) = 0.125 := by
  rw [show (1.5 : ℝ) = 1 / 2 * 3 by norm_num, Real.rpow_mul (by norm_num : (0:ℝ) ≤ 0.25),
    ← Real.sqrt_eq_rpow, show (0.25 : ℝ) = 0.5 ^ 2 by norm_num,
    Real.sqrt_sq (by norm_num : (0:ℝ) ≤ 0.5),
    show (3 : ℝ) = ((3 : ℕ) : ℝ) by norm_num, Real.rpow_natCast]
  norm_num

theorem sweepV_getD (K rho mu phi : ℝ) (i : ℕ) (h : i < 100) :
    (sweepV K rho mu phi).getD i (0, 0) =
      (lin 0.01 2.0 100 i,
        (lin 0.01 2.0 100 i * rho * K ^ (0.5 : ℝ)) /
          (17.50 * mu * phi ^ (1.5 : ℝ))) := by
  unfold sweepV linspace
  rw [List.map_map]
  exact getD_range_map _ 100 i _ h

theorem sweepPhi_getD (v K rho mu : ℝ) (i : ℕ) (h : i < 100) :
    (sweepPhi v K rho mu).getD i (0, 0) =
      (lin 0.01 0.8 100 i,
        (v * rho * K ^ (0.5 : ℝ)) /
          (17.50 * mu * lin 0.01 0.8 100 i ^ (1.5 : ℝ))) := by
  unfold sweepPhi linspace
  rw [List.map_map]
  exact getD_range_map _ 100 i _ h

theorem flatten_grid {α : Type} (f : ℕ → ℕ → α) (m n : ℕ) :
    ((List.range m).map (fun j => (List.range n).map (fun i => f j i))).flatten
      = (List.range (m * n)).map (fun k => f (k / n) (k % n)) := by
  rcases Nat.eq_zero_or_pos n with hn | hn
  · subst hn
    induction m with
    | zero => simp
    | succ m ih => rw [List.range_succ, List.map_append, List.flatten_append, ih]; simp
  · induction m with
    | zero => simp
    | succ m ih =>
      rw [List.range_succ, List.map_append, List.flatten_append, ih,
        Nat.succ_mul, List.range_add, List.map_append, List.map_map]
      simp only [List.map_cons, List.map_nil, List.flatten_cons, List.flatten_nil,
        List.append_nil]
      congr 1
      apply List.map_congr_left
      intro i hi
      have hi' : i < n := List.mem_range.mp hi
      have h1 : (m * n + i) / n = m := by
        rw [Nat.mul_comm, Nat.mul_add_div hn, Nat.div_eq_of_lt hi', Nat.add_zero]
      have h2 : (m * n + i) % n = i := Nat.mul_add_mod_of_lt hi'
      simp only [Function.comp_apply, h1, h2]

theorem gridTriples_eq (K rho mu : ℝ) :
    gridTriples K rho mu = (List.range 2500).map (fun k =>
      (lin 0.01 2.0 50 (k % 50), lin 0.01 0.8 50 (k / 50),
        (lin 0.01 2.0 50 (k % 50) * rho * K ^ (0.5 : ℝ)) /
          (17.50 * mu * lin 0.01 0.8 50 (k / 50) ^ (1.5 : ℝ)))) := by
  unfold gridTriples
  rw [flatten_grid (fun j i =>
    (lin 0.01 2.0 50 i, lin 0.01 0.8 50 j,
      (lin 0.01 2.0 50 i * rho * K ^ (0.5 : ℝ)) /
        (17.50 * mu * lin 0.01 0.8 50 j ^ (1.5 : ℝ)))) 50 50]

/-! ### Claims -/

/-- Claim C1: for all inputs with `v > 0`, `rho > 0`, `K ≥ 0`, `mu > 0`,
`phi > 0`, the formula evaluator returns
`Re = (v * rho * sqrt K) / (17.50 * mu * phi^1.5)` exactly, as a
real-arithmetic equation: the source's `K ** 0.5` agrees with the spec's
`sqrt(K)` on nonnegative `K`. -/
theorem Re_matches_spec_formula (v K rho mu phi : ℝ)
    (hv : v > 0) (hrho : rho > 0) (hK : K ≥ 0) (hmu : mu > 0) (hphi : phi > 0) :
    Re_eval v K rho mu phi = Re_specFormula v K rho mu phi := by
  unfold Re_eval Re_specFormula
  rw [Real.sqrt_eq_rpow, show (1 / 2 : ℝ) = 0.5 by norm_num]

/-- Witness for C1 at the concrete input `v = 1, K = 1, rho = 1, mu = 1, phi = 1`. -/
theorem Re_matches_spec_formula_witness :
    Re_eval 1 1 1 1 1 = Re_specFormula 1 1 1 1 1 :=
  Re_matches_spec_formula 1 1 1 1 1 (by norm_num) (by norm_num) (by norm_num)
    (by norm_num) (by norm_num)

/-- Claim C3: at the concrete input `v = 0.1, K = 100, rho = 1, mu = 1,
phi = 0.25` the evaluator returns `Re = 1 / 2.1875` (so about `0.457143`). -/
theorem Re_concrete_value : Re_eval 0.1 100 1 1 0.25 = 1 / 2.1875 := by
  unfold Re_eval
  rw [rpow_half_100, rpow_three_halves_quarter]
  norm_num

/-- Claim C8: the formula evaluator is deterministic and, being embedded as a
pure total function of its five arguments, side-effect free: equal inputs give
equal results. -/
theorem Re_eval_deterministic (v K rho mu phi v' K' rho' mu' phi' : ℝ)
    (h1 : v = v') (h2 : K = K') (h3 : rho = rho') (h4 : mu = mu') (h5 : phi = phi') :
    Re_eval v K rho mu phi = Re_eval v' K' rho' mu' phi' := by
  subst h1 h2 h3 h4 h5
  rfl

/-- Witness for C8 at a concrete repeated input. -/
theorem Re_eval_deterministic_witness :
    Re_eval 0.1 100 1 1 0.25 = Re_eval 0.1 100 1 1 0.25 :=
  Re_eval_deterministic 0.1 100 1 1 0.25 0.1 100 1 1 0.25 rfl rfl rfl rfl rfl

/-- Claim C4: holding the other four parameters fixed at admissible values,
`Re` is strictly increasing in `v` and in `K`, and strictly decreasing in `mu`
and in `phi`. -/
theorem Re_monotonicity (v K rho mu phi v1 v2 K1 K2 mu1 mu2 phi1 phi2 : ℝ)
    (hv : 0 < v) (hK : 0 < K) (hrho : 0 < rho) (hmu : 0 < mu) (hphi : 0 < phi)
    (hv1 : 0 < v1) (hv12 : v1 < v2)
    (hK1 : 0 ≤ K1) (hK12 : K1 < K2)
    (hmu1 : 0 < mu1) (hmu12 : mu1 < mu2)
    (hphi1 : 0 < phi1) (hphi12 : phi1 < phi2) :
    Re_eval v1 K rho mu phi < Re_eval v2 K rho mu phi ∧
    Re_eval v K1 rho mu phi < Re_eval v K2 rho mu phi ∧
    Re_eval v K rho mu2 phi < Re_eval v K rho mu1 phi ∧
    Re_eval v K rho mu phi2 < Re_eval v K rho mu phi1 := by
  have hKhalf : (0:ℝ) < K ^ (0.5 : ℝ) := Real.rpow_pos_of_pos hK _
  have hphi32 : (0:ℝ) < phi ^ (1.5 : ℝ) := Real.rpow_pos_of_pos hphi _
  have hD : (0:ℝ) < 17.50 * mu * phi ^ (1.5 : ℝ) := by positivity
  have hN : (0:ℝ) < v * rho * K ^ (0.5 : ℝ) := by positivity
  refine ⟨?_, ?_, ?_, ?_⟩
  · unfold Re_eval
    exact (div_lt_div_iff_of_pos_right hD).mpr (by nlinarith)
  · unfold Re_eval
    have hpow : K1 ^ (0.5 : ℝ) < K2 ^ (0.5 : ℝ) :=
      Real.rpow_lt_rpow hK1 hK12 (by norm_num)
    exact (div_lt_div_iff_of_pos_right hD).mpr (by nlinarith)
  · unfold Re_eval
    exact div_lt_div_of_pos_left hN (by positivity) (by nlinarith)
  · unfold Re_eval
    have hpow : phi1 ^ (1.5 : ℝ) < phi2 ^ (1.5 : ℝ) :=
      Real.rpow_lt_rpow (le_of_lt hphi1) hphi12 (by norm_num)
    have hD1 : (0:ℝ) < 17.50 * mu * phi1 ^ (1.5 : ℝ) := by
      have := Real.rpow_pos_of_pos hphi1 (1.5 : ℝ)
      positivity
    exact div_lt_div_of_pos_left hN hD1 (by nlinarith)

/-- Witness for C4 at concrete parameter pairs. -/
theorem Re_monotonicity_witness :
    Re_eval 1 1 1 1 1 < Re_eval 2 1 1 1 1 ∧
    Re_eval 1 0 1 1 1 < Re_eval 1 1 1 1 1 ∧
    Re_eval 1 1 1 2 1 < Re_eval 1 1 1 1 1 ∧
    Re_eval 1 1 1 1 2 < Re_eval 1 1 1 1 1 :=
  Re_monotonicity 1 1 1 1 1 1 2 0 1 1 2 1 2 (by norm_num) (by norm_num)
    (by norm_num) (by norm_num) (by norm_num) (by norm_num) (by norm_num)
    (by norm_num) (by norm_num) (by norm_num) (by norm_num) (by norm_num)
    (by norm_num)

/-- Claim C5: for every fixed `K, rho, mu, phi`, the `v` sweep produces exactly
100 samples; sample `i` has `v`-coordinate `0.01 + (2.0 - 0.01) * i / 99`, so
the coordinates are linearly spaced over `[0.01, 2.0]` with both endpoints
included; they are strictly increasing; and each sample's `Re` equals the
evaluator applied pointwise at `(v_i, K, rho, mu, phi)`. -/
theorem sweepV_spec (K rho mu phi : ℝ) :
    (sweepV K rho mu phi).length = 100 ∧
    (∀ i, i < 100 →
      ((sweepV K rho mu phi).getD i (0, 0)).1 = 0.01 + (2.0 - 0.01) * i / 99) ∧
    ((sweepV K rho mu phi).getD 0 (0, 0)).1 = 0.01 ∧
    ((sweepV K rho mu phi).getD 99 (0, 0)).1 = 2.0 ∧
    (∀ i j, i < j → j < 100 →
      ((sweepV K rho mu phi).getD i (0, 0)).1 <
        ((sweepV K rho mu phi).getD j (0, 0)).1) ∧
    (∀ i, i < 100 →
      ((sweepV K rho mu phi).getD i (0, 0)).2 =
        Re_eval (((sweepV K rho mu phi).getD i (0, 0)).1) K rho mu phi) := by
  refine ⟨?_, ?_, ?_, ?_, ?_, ?_⟩
  · unfold sweepV linspace
    simp
  · intro i hi
    rw [sweepV_getD K rho mu phi i hi]
    unfold lin
    norm_num
  · rw [sweepV_getD K rho mu phi 0 (by norm_num)]
    unfold lin
    norm_num
  · rw [sweepV_getD K rho mu phi 99 (by norm_num)]
    unfold lin
    norm_num
  · intro i j hij hj
    rw [sweepV_getD K rho mu phi i (by omega), sweepV_getD K rho mu phi j hj]
    exact lin_strictMono (by norm_num) 100 hij hj
  · intro i hi
    rw [sweepV_getD K rho mu phi i hi]
    rfl

/-- Witness for C5: at `K = rho = mu = phi = 1`, sample 0 sits strictly below
sample 99. -/
theorem sweepV_spec_witness :
    ((sweepV 1 1 1 1).getD 0 (0, 0)).1 < ((sweepV 1 1 1 1).getD 99 (0, 0)).1 :=
  (sweepV_spec 1 1 1 1).2.2.2.2.1 0 99 (by norm_num) (by norm_num)

/-- Claim C6: for every fixed `v, K, rho, mu`, the `phi` sweep produces exactly
100 samples; sample `i` has `phi`-coordinate `0.01 + (0.8 - 0.01) * i / 99`, so
the coordinates are linearly spaced over `[0.01, 0.8]` with both endpoints
included; they are strictly increasing; and each sample's `Re` equals the
evaluator applied pointwise at `(v, K, rho, mu, phi_i)`. -/
theorem sweepPhi_spec (v K rho mu : ℝ) :
    (sweepPhi v K rho mu).length = 100 ∧
    (∀ i, i < 100 →
      ((sweepPhi v K rho mu).getD i (0, 0)).1 = 0.01 + (0.8 - 0.01) * i / 99) ∧
    ((sweepPhi v K rho mu).getD 0 (0, 0)).1 = 0.01 ∧
    ((sweepPhi v K rho mu).getD 99 (0, 0)).1 = 0.8 ∧
    (∀ i j, i < j → j < 100 →
      ((sweepPhi v K rho mu).getD i (0, 0)).1 <
        ((sweepPhi v K rho mu).getD j (0, 0)).1) ∧
    (∀ i, i < 100 →
      ((sweepPhi v K rho mu).getD i (0, 0)).2 =
        Re_eval v K rho mu (((sweepPhi v K rho mu).getD i (0, 0)).1)) := by
  refine ⟨?_, ?_, ?_, ?_, ?_, ?_⟩
  · unfold sweepPhi linspace
    simp
  · intro i hi
    rw [sweepPhi_getD v K rho mu i hi]
    unfold lin
    norm_num
  · rw [sweepPhi_getD v K rho mu 0 (by norm_num)]
    unfold lin
    norm_num
  · rw [sweepPhi_getD v K rho mu 99 (by norm_num)]
    unfold lin
    norm_num
  · intro i j hij hj
    rw [sweepPhi_getD v K rho mu i (by omega), sweepPhi_getD v K rho mu j hj]
    exact lin_strictMono (by norm_num) 100 hij hj
  · intro i hi
    rw [sweepPhi_getD v K rho mu i hi]
    rfl

/-- Witness for C6: at `v = K = rho = mu = 1`, sample 0 sits strictly below
sample 99. -/
theorem sweepPhi_spec_witness :
    ((sweepPhi 1 1 1 1).getD 0 (0, 0)).1 < ((sweepPhi 1 1 1 1).getD 99 (0, 0)).1 :=
  (sweepPhi_spec 1 1 1 1).2.2.2.2.1 0 99 (by norm_num) (by norm_num)

/-- Claim C7: for every fixed `K, rho, mu`, the grid sweep produces exactly
2500 triples; the triple at flattened index `50 * j + i` (so `phi` is the
outer, slower index and `v` the inner, faster one) is
`(v_i, phi_j, Re_eval v_i K rho mu phi_j)`, covering the full outer product of
the 50 linearly spaced `v` values over `[0.01, 2.0]` and 50 linearly spaced
`phi` values over `[0.01, 0.8]`. -/
theorem gridSweep_spec (K rho mu : ℝ) :
    (gridTriples K rho mu).length = 2500 ∧
    (∀ j i, j < 50 → i < 50 →
      (gridTriples K rho mu).getD (50 * j + i) (0, 0, 0) =
        (lin 0.01 2.0 50 i, lin 0.01 0.8 50 j,
          Re_eval (lin 0.01 2.0 50 i) K rho mu (lin 0.01 0.8 50 j))) ∧
    (∀ i, i < 50 → lin 0.01 2.0 50 i = 0.01 + (2.0 - 0.01) * i / 49) ∧
    (∀ j, j < 50 → lin 0.01 0.8 50 j = 0.01 + (0.8 - 0.01) * j / 49) ∧
    lin 0.01 2.0 50 0 = 0.01 ∧ lin 0.01 2.0 50 49 = 2.0 ∧
    lin 0.01 0.8 50 0 = 0.01 ∧ lin 0.01 0.8 50 49 = 0.8 := by
  refine ⟨?_, ?_, ?_, ?_, ?_, ?_, ?_, ?_⟩
  · rw [gridTriples_eq]
    simp
  · intro j i hj hi
    rw [gridTriples_eq, getD_range_map _ 2500 (50 * j + i) _ (by omega)]
    have h1 : (50 * j + i) % 50 = i := by omega
    have h2 : (50 * j + i) / 50 = j := by omega
    rw [h1, h2]
    rfl
  · intro i hi
    unfold lin
    norm_num
  · intro j hj
    unfold lin
    norm_num
  · unfold lin; norm_num
  · unfold lin; norm_num
  · unfold lin; norm_num
  · unfold lin; norm_num

/-- Witness for C7: the corner triple at flattened index `50 * 49 + 49`. -/
theorem gridSweep_spec_witness :
    (gridTriples 1 1 1).getD (50 * 49 + 49) (0, 0, 0) =
      (lin 0.01 2.0 50 49, lin 0.01 0.8 50 49,
        Re_eval (lin 0.01 2.0 50 49) 1 1 1 (lin 0.01 0.8 50 49)) :=
  (gridSweep_spec 1 1 1).2.1 49 49 (by norm_num) (by norm_num)

/-- Claim C2 counterexample: at `v = 0.1, K = 100, rho = 1, mu = 0, phi = 0.25`
the guard fails (so the claim asserts no chart is produced), yet every
selectbox option still builds its full chart dataset: the chart/sweep section
of lines 50-103 sits outside the guard of line 39. -/
theorem guard_blocks_chart_counterexample :
    ¬ guard_ok 0.1 100 1 0 0.25 ∧
    datasetSize .optV 0.1 100 1 0 0.25 = 100 ∧
    datasetSize .optPhi 0.1 100 1 0 0.25 = 100 ∧
    datasetSize .optHeat 0.1 100 1 0 0.25 = 2500 ∧
    datasetSize .optContour 0.1 100 1 0 0.25 = 2500 := by
  refine ⟨?_, ?_, ?_, ?_, ?_⟩
  · unfold guard_ok
    norm_num
  · unfold datasetSize sweepV linspace
    simp
  · unfold datasetSize sweepPhi linspace
    simp
  · unfold datasetSize
    rw [gridTriples_eq]
    simp
  · unfold datasetSize
    rw [gridTriples_eq]
    simp

/-- Claim C2 amended: the single validity guard holds iff all five inputs are
strictly positive; when it fails, a warning is shown and no primary result is
bound for that render pass (in particular `mu = 0` or `phi = 0` is rejected
before the evaluation of line 40 is attempted) — but the chart dataset of the
selected sweep mode is still produced, since lines 50-103 are outside the
guard. -/
theorem guard_spec (v K rho mu phi : ℝ) :
    (guard_ok v K rho mu phi ↔ (0 < v ∧ 0 < K ∧ 0 < rho ∧ 0 < mu ∧ 0 < phi)) ∧
    (¬ guard_ok v K rho mu phi →
      primaryResult v K rho mu phi = none ∧ warningShown v K rho mu phi) ∧
    (guard_ok v K rho mu phi →
      primaryResult v K rho mu phi = some (Re_eval v K rho mu phi) ∧
      ¬ warningShown v K rho mu phi) ∧
    (mu = 0 ∨ phi = 0 → primaryResult v K rho mu phi = none) ∧
    (∀ opt, 0 < datasetSize opt v K rho mu phi) := by
  refine ⟨Iff.rfl, ?_, ?_, ?_, ?_⟩
  · intro h
    exact ⟨by unfold primaryResult; rw [if_neg h], h⟩
  · intro h
    exact ⟨by unfold primaryResult; rw [if_pos h], not_not_intro h⟩
  · intro h
    have hng : ¬ guard_ok v K rho mu phi := by
      unfold guard_ok
      rcases h with h | h <;> rw [h] <;> simp
    unfold primaryResult
    rw [if_neg hng]
  · intro opt
    cases opt with
    | optV => unfold datasetSize sweepV linspace; simp
    | optPhi => unfold datasetSize sweepPhi linspace; simp
    | optHeat => unfold datasetSize; rw [gridTriples_eq]; simp
    | optContour => unfold datasetSize; rw [gridTriples_eq]; simp

/-- Witness for the amended C2 at a failing input with `mu = 0`. -/
theorem guard_spec_witness :
    primaryResult 0.1 100 1 0 0.25 = none ∧ warningShown 0.1 100 1 0 0.25 :=
  (guard_spec 0.1 100 1 0 0.25).2.1 (by unfold guard_ok; norm_num)

/-- Claim C9: the sweep path applies no validity guard: even for inputs that
fail the positivity check, every sweep mode still produces its full dataset,
and if the fixed `mu` or `phi` is zero, each `v`-sweep sample's `Re` is the
embedded division by a zero denominator (the real-arithmetic rendering of the
infinite/not-a-number floats numpy emits), placed into the dataset unchanged
rather than being rejected. -/
theorem sweep_path_unguarded (v K rho mu phi : ℝ) (h : ¬ guard_ok v K rho mu phi) :
    (sweepV K rho mu phi).length = 100 ∧
    (sweepPhi v K rho mu).length = 100 ∧
    (gridTriples K rho mu).length = 2500 ∧
    ((mu = 0 ∨ phi = 0) →
      17.50 * mu * phi ^ (1.5 : ℝ) = 0 ∧
      ∀ i, i < 100 →
        ((sweepV K rho mu phi).getD i (0, 0)).2 =
          (((sweepV K rho mu phi).getD i (0, 0)).1 * rho * K ^ (0.5 : ℝ)) / 0) := by
  refine ⟨?_, ?_, ?_, ?_⟩
  · unfold sweepV linspace
    simp
  · unfold sweepPhi linspace
    simp
  · rw [gridTriples_eq]
    simp
  · intro hdeg
    have hden : 17.50 * mu * phi ^ (1.5 : ℝ) = 0 := by
      rcases hdeg with hd | hd
      · rw [hd]; ring
      · rw [hd, Real.zero_rpow (by norm_num : (1.5:ℝ) ≠ 0)]; ring
    refine ⟨hden, ?_⟩
    intro i hi
    rw [sweepV_getD K rho mu phi i hi, hden]

/-- Witness for C9 at the failing input `v = 0.1, K = 100, rho = 1, mu = 0,
phi = 0.25`: the dataset is still 100 samples long and sample 0 carries the
zero-denominator quotient. -/
theorem sweep_path_unguarded_witness :
    (sweepV 100 1 0 0.25).length = 100 ∧
    ((sweepV 100 1 0 0.25).getD 0 (0, 0)).2 =
      (((sweepV 100 1 0 0.25).getD 0 (0, 0)).1 * 1 * (100:ℝ) ^ (0.5 : ℝ)) / 0 :=
  ⟨(sweep_path_unguarded 0.1 100 1 0 0.25 (by unfold guard_ok; norm_num)).1,
    ((sweep_path_unguarded 0.1 100 1 0 0.25 (by unfold guard_ok; norm_num)).2.2.2
      (Or.inl rfl)).2 0 (by norm_num)⟩

/-- Claim C10: both report exports read the primary result `Re`, bound only
when the guard succeeded; when some input is not strictly positive, invoking
either export produces no report and fails with the unhandled undefined-name
error, and when the guard holds both exports succeed — the exports are total
exactly under the positivity precondition. -/
theorem report_exports_need_guard (v K rho mu phi : ℝ) :
    (¬ guard_ok v K rho mu phi →
      wordReportParams v K rho mu phi =
        .error "NameError: name Re is not defined" ∧
      pdfReportParams v K rho mu phi =
        .error "NameError: name Re is not defined") ∧
    (guard_ok v K rho mu phi →
      wordReportParams v K rho mu phi =
        .ok [("v", v), ("K", K), ("rho", rho), ("mu", mu), ("phi", phi),
          ("Re", Re_eval v K rho mu phi)] ∧
      pdfReportParams v K rho mu phi =
        .ok [("v", v), ("K", K), ("rho", rho), ("mu", mu), ("phi", phi),
          ("Re", Re_eval v K rho mu phi)]) := by
  constructor
  · intro h
    have hp : primaryResult v K rho mu phi = none := by
      unfold primaryResult
      rw [if_neg h]
    exact ⟨by unfold wordReportParams; rw [hp], by unfold pdfReportParams; rw [hp]⟩
  · intro h
    have hp : primaryResult v K rho mu phi = some (Re_eval v K rho mu phi) := by
      unfold primaryResult
      rw [if_pos h]
    exact ⟨by unfold wordReportParams; rw [hp], by unfold pdfReportParams; rw [hp]⟩

/-- Witness for C10 at the failing input `rho = 0`: both exports fail with the
undefined-name error. -/
theorem report_exports_need_guard_witness :
    wordReportParams 0.1 100 0 1 0.25 =
      .error "NameError: name Re is not defined" ∧
    pdfReportParams 0.1 100 0 1 0.25 =
      .error "NameError: name Re is not defined" :=
  (report_exports_need_guard 0.1 100 0 1 0.25).1 (by unfold guard_ok; norm_num)

end ReCal
